import Mathlib

/-!
Verification of the jiracal reconciliation engine (src/app.py).

Shallow embedding conventions:
* instants are integers, seconds since the Unix epoch, always UTC; the wire
  timestamp string produced by jira_datetime_from_iso denotes exactly the
  instant it was built from, so payload fields carry the instant itself;
* JSON dictionaries coming from the remote service are structures whose
  optional keys are Option fields;
* the effect of an HTTP-performing function is represented by the list of
  requests it issues and by an Except-valued outcome parameter.
-/

namespace Jiracal

/-- Instant truncation to the lower 5-minute grid line: round_to_5min in
app.py replaces the minute field by its largest multiple of 5 below and
zeroes seconds and microseconds, which on epoch seconds is truncation to a
multiple of 300. -/
def round_to_5min (t : Int) : Int :=
  300 * (t / 300)

/-- Text node of an Atlassian Document Format tree. -/
structure AdfText where
  text : String
deriving DecidableEq

/-- Paragraph node of an Atlassian Document Format tree: its content is a
list of text nodes. -/
structure AdfParagraph where
  content : List AdfText
deriving DecidableEq

/-- Document node of an Atlassian Document Format tree: version and a
list of paragraphs — the only node shapes adf_comment ever builds. -/
structure AdfDoc where
  version : Nat
  content : List AdfParagraph
deriving DecidableEq

/-- adf_comment from app.py: an empty text (the only falsy str) yields None,
otherwise a doc of version 1 with a single paragraph holding a single text
node. -/
def adf_comment (text : String) : Option AdfDoc :=
  if text = "" then none
  else some { version := 1, content := [{ content := [{ text := text }] }] }

/-- Remote worklog record as consumed by cached_worklogs_week: author is
the accountId found under the author key (absent keys are none),
timeSpentSeconds may be absent or null, commentStr is the comment value
when it is a plain string. -/
structure Worklog where
  id : String
  authorAccountId : Option String
  started : Int
  timeSpentSeconds : Option Nat
  commentStr : Option String
deriving DecidableEq

/-- Issue returned by the coarse JQL search, together with the worklogs
fetched for it by get_issue_worklogs. -/
structure Issue where
  key : String
  summary : String
  worklogs : List Worklog
deriving DecidableEq

/-- Calendar event dictionary built by cached_worklogs_week (the Python
key named end is called stop here since end is a Lean keyword). -/
structure CalBlock where
  id : String
  title : String
  start : Int
  stop : Int
  issueKey : String
  worklogId : String
  timeSpentSeconds : Nat
  comment : String
  editable : Bool
deriving DecidableEq

/-- Pure core of cached_worklogs_week (app.py lines 261-299): the JQL
search result and the per-issue worklog fetches are the issues input; for
each worklog the author filter, the exact-instant range filter and the
event construction are exactly the loop body.  secs is
wl.get timeSpentSeconds with default 0, and the event end is
started + timedelta(seconds = secs or 0). -/
def cached_worklogs_week (accountId : String) (startUtc endUtc : Int)
    (issues : List Issue) : List CalBlock :=
  issues.flatMap fun issue =>
    issue.worklogs.filterMap fun wl =>
      if wl.authorAccountId ≠ some accountId then none
      else if wl.started < startUtc ∨ wl.started > endUtc then none
      else
        let secs : Nat := wl.timeSpentSeconds.getD 0
        some { id := issue.key ++ "::" ++ wl.id
             , title := issue.key ++ " · " ++ issue.summary
             , start := wl.started
             , stop := wl.started + (secs : Int)
             , issueKey := issue.key
             , worklogId := wl.id
             , timeSpentSeconds := secs
             , comment := wl.commentStr.getD ""
             , editable := false }

/-- Duration computed by the draft editor (app.py lines 684-686):
dur_secs = int((end - start).total_seconds()), then clamped up to 60. -/
def editor_dur_secs (startI endI : Int) : Int :=
  let d := endI - startI
  if d < 60 then 60 else d

/-- Session draft dictionary (app.py line 18): id, title, start, end
(stop here), mode, issueKey, worklogId, comment. -/
structure Draft where
  id : String
  title : String
  start : Int
  stop : Int
  mode : String
  issueKey : Option String
  worklogId : Option String
  comment : String
deriving DecidableEq

/-- mk_draft_from_click (app.py lines 597-609): the draft starts at the
click instant itself (converted to UTC, which preserves the instant) and
ends one hour later. -/
def mk_draft_from_click (startInstant : Int) : Draft :=
  { id := "__DRAFT__"
  , title := "Новий worklog (чернетка)"
  , start := startInstant
  , stop := startInstant + 3600
  , mode := "new"
  , issueKey := none
  , worklogId := none
  , comment := "" }

/-- Python str truthiness: a string is truthy exactly when non-empty,
computed on the character list so that proofs can evaluate it. -/
def pyNonEmpty (s : String) : Bool :=
  !s.toList.isEmpty

/-- Python startswith, computed on the character lists so that proofs can
evaluate it. -/
def pyStartsWith (s pat : String) : Bool :=
  pat.toList.isPrefixOf s.toList

/-- Splits a character list at the first occurrence of two consecutive
colons, as Python id.split with separator :: and maxsplit 1 does; none
when the separator does not occur (Python would raise on indexing, but
every caller guards on containment first). -/
def splitTwoColons : List Char → Option (List Char × List Char)
  | [] => none
  | ':' :: ':' :: tail => some ([], tail)
  | c :: rest => (splitTwoColons rest).map fun p => (c :: p.1, p.2)

/-- Calendar event payload as serialized for the debounce comparison:
the fields read by mk_draft_from_existing and update_draft_time. Two
payloads are equal exactly when their canonical JSON serializations are. -/
structure EvPayload where
  id : String
  title : String
  start : Int
  stop : Int
  comment : String
deriving DecidableEq

/-- mk_draft_from_existing (app.py lines 611-625): returns without
touching the draft when the event id does not contain ::, otherwise
builds an edit-mode draft copying the block identity, times and comment. -/
def mk_draft_from_existing (ev : EvPayload) : Option Draft :=
  match splitTwoColons ev.id.toList with
  | none => none
  | some (ik, wid) =>
    some { id := "__DRAFT_EDIT__"
         , title := ev.title
         , start := ev.start
         , stop := ev.stop
         , mode := "edit"
         , issueKey := some (String.mk ik)
         , worklogId := some (String.mk wid)
         , comment := ev.comment }

/-- Session state touched by the calendar interaction handlers: the three
debounce keys deb_dateClick, deb_eventClick, deb_eventChange and the
draft. -/
structure UIState where
  debDateClick : Option Int
  debEventClick : Option EvPayload
  debEventChange : Option EvPayload
  draft : Option Draft
deriving DecidableEq

/-- One calendar interaction: the dateClick date, or the serialized
eventClick or eventChange event. -/
inductive CalInteraction : Type
  | dateClick (date : Int)
  | eventClick (ev : EvPayload)
  | eventChange (ev : EvPayload)
deriving DecidableEq

/-- Calendar interaction dispatch (app.py lines 633-668): each class of
event first runs debounce against its own key — the stored payload is
compared and, when new, overwritten before the effect runs — then applies
its effect: dateClick builds a new draft, eventClick on a non-draft block
with a :: id builds an edit draft, eventChange on the draft block updates
the draft times. -/
def handle_interaction (s : UIState) : CalInteraction → UIState
  | .dateClick d =>
    if s.debDateClick = some d then s
    else { s with debDateClick := some d, draft := some (mk_draft_from_click d) }
  | .eventClick ev =>
    if s.debEventClick = some ev then s
    else
      let s1 : UIState := { s with debEventClick := some ev }
      if pyStartsWith ev.id "__DRAFT__" then s1
      else
        match mk_draft_from_existing ev with
        | none => s1
        | some d => { s1 with draft := some d }
  | .eventChange ev =>
    if s.debEventChange = some ev then s
    else
      let s1 : UIState := { s with debEventChange := some ev }
      if pyStartsWith ev.id "__DRAFT__" then
        match s1.draft with
        | none => s1
        | some d => { s1 with draft := some { d with start := ev.start, stop := ev.stop } }
      else s1

/-- One page of the worklog listing as returned for a given startAt:
worklogs (default empty), total (default 0 folded in) and maxResults
(kept optional because its default differs: the current page length). -/
structure WorklogPage (α : Type) where
  worklogs : List α
  total : Nat
  maxResults : Option Nat

/-- Loop body of JiraClient.get_issue_worklogs (app.py lines 132-144),
with the unbounded while-loop given explicit fuel: none models running
out of fuel, some a normal exit through the break.  The break fires when
the accumulated length has reached the total reported by the current
page; otherwise startAt advances by maxResults, defaulting to the current
page length. -/
def get_issue_worklogs_go {α : Type} (pages : Nat → WorklogPage α) :
    Nat → Nat → List α → Option (List α)
  | 0, _, _ => none
  | fuel + 1, startAt, acc =>
    let data := pages startAt
    let acc1 := acc ++ data.worklogs
    if data.total ≤ acc1.length then some acc1
    else get_issue_worklogs_go pages fuel
      (startAt + data.maxResults.getD data.worklogs.length) acc1

/-- JiraClient.get_issue_worklogs entry point: startAt 0, empty
accumulator. -/
def get_issue_worklogs {α : Type} (pages : Nat → WorklogPage α) (fuel : Nat) :
    Option (List α) :=
  get_issue_worklogs_go pages fuel 0 []

/-- Body of the PUT issued by JiraClient.update_worklog (app.py lines
146-157): each field is included only when the corresponding argument is
not None, and the comment additionally only when adf_comment yields a
document. -/
structure UpdatePayload where
  started : Option Int
  timeSpentSeconds : Option Int
  comment : Option AdfDoc
deriving DecidableEq

/-- Payload construction of JiraClient.update_worklog. -/
def update_worklog_payload (startedIso : Option Int)
    (timeSpentSeconds : Option Int) (comment : Option String) : UpdatePayload :=
  { started := startedIso
  , timeSpentSeconds := timeSpentSeconds
  , comment :=
      match comment with
      | none => none
      | some c => adf_comment c }

/-- One HTTP request as issued by the gateway: method, the mandatory
notifyUsers=false query flag, and the JSON body. -/
structure WireRequest where
  method : String
  notifyUsers : Bool
  payload : UpdatePayload
deriving DecidableEq

/-- Requests issued by one call to JiraClient.update_worklog: exactly one
PUT carrying the combined payload (app.py lines 158-166). -/
def update_worklog_requests (startedIso timeSpentSeconds : Option Int)
    (comment : Option String) : List WireRequest :=
  [{ method := "PUT"
   , notifyUsers := false
   , payload := update_worklog_payload startedIso timeSpentSeconds comment }]

/-- Payload the edit-mode save branch passes to update_worklog (app.py
lines 801-807): started and dur_secs always supplied, the comment passed
as comment or None, so the empty string becomes None. -/
def edit_save_payload (startInstant durSecs : Int) (comment : String) :
    UpdatePayload :=
  update_worklog_payload (some startInstant) (some durSecs)
    (if comment = "" then none else some comment)

/-- Requests issued by an edit-mode save. -/
def edit_save_requests (startInstant durSecs : Int) (comment : String) :
    List WireRequest :=
  update_worklog_requests (some startInstant) (some durSecs)
    (if comment = "" then none else some comment)

/-- Body of the POST issued by JiraClient.add_worklog (app.py lines
175-182): started and timeSpentSeconds always present, comment only when
adf_comment yields a document. -/
structure AddPayload where
  started : Int
  timeSpentSeconds : Int
  comment : Option AdfDoc
deriving DecidableEq

/-- Payload construction of JiraClient.add_worklog. -/
def add_worklog_payload (startedIso : Int) (timeSpentSeconds : Int)
    (comment : String) : AddPayload :=
  { started := startedIso
  , timeSpentSeconds := timeSpentSeconds
  , comment := adf_comment comment }

/-- Observable outcome of the Save branch of the draft editor form
(app.py lines 784-814). -/
structure SaveOutcome where
  draft : Option Draft
  cacheCleared : Bool
  errorShown : Bool
deriving DecidableEq

/-- Save branch of the draft editor form: in new mode a missing issue key
stops with an inline error before any remote call; otherwise the remote
write outcome (add_worklog or update_worklog, abstracted as remote)
decides: on success the draft is dropped and the projection cache
cleared, on an exception the handler only shows the error, leaving the
draft untouched. -/
def handle_save (d : Draft) (selectedIssueKey : String)
    (remote : Except String Unit) : SaveOutcome :=
  if d.mode = "new" ∧ selectedIssueKey = "" then
    { draft := some d, cacheCleared := false, errorShown := true }
  else
    match remote with
    | .ok _ => { draft := none, cacheCleared := true, errorShown := false }
    | .error _ => { draft := some d, cacheCleared := false, errorShown := true }

/-- Committed remote worklog, for stating what a partial write leaves
untouched. -/
structure RemoteWorklog where
  started : Int
  timeSpentSeconds : Int
  comment : Option AdfDoc
deriving DecidableEq

/-- Modelled from the spec: the remote service itself is outside the
repository; per the gateway contract only supplied fields of an update
request change the stored record, absent fields are left as they were. -/
def applyUpdate (w : RemoteWorklog) (p : UpdatePayload) : RemoteWorklog :=
  { started := p.started.getD w.started
  , timeSpentSeconds := p.timeSpentSeconds.getD w.timeSpentSeconds
  , comment :=
      match p.comment with
      | none => w.comment
      | some c => some c }

/-- One entry of the field catalog as read by epic_link_jql_name: id and
name keys may be absent, schemaCustom is the custom key of the schema
sub-dictionary. -/
structure CatalogField where
  id : Option String
  name : Option String
  schemaCustom : Option String
deriving DecidableEq

/-- Schema marker identifying the epic-link field on Jira Cloud. -/
def ghEpicLinkMarker : String := "com.pyxis.greenhopper.jira:gh-epic-link"

/-- Everything after the first underscore of a character list, as Python
split on an underscore with maxsplit 1 and index 1 yields; callers only
reach this under a startsWith guard that guarantees an underscore. -/
def afterFirstUnderscore : List Char → List Char
  | [] => []
  | c :: rest => if c = '_' then rest else afterFirstUnderscore rest

/-- String form of afterFirstUnderscore. -/
def splitUnderscoreRest (s : String) : String :=
  String.mk (afterFirstUnderscore s.toList)

/-- Result built for the matching catalog field (body of the loop match
in epic_link_jql_name): a truthy id starting with the custom-field naming
convention yields the bracketed numeric token, anything else the display
name with the fixed fallback as default. -/
def epicLinkFieldToken (f : CatalogField) : String :=
  match f.id with
  | some fid =>
    if pyNonEmpty fid && pyStartsWith fid "customfield_" then
      "cf[" ++ splitUnderscoreRest fid ++ "]"
    else f.name.getD "Epic Link"
  | none => f.name.getD "Epic Link"

/-- Loop of JiraClient.epic_link_jql_name over the catalog (app.py lines
213-226): the first field whose schema marker matches decides the result,
no match falls through to the fixed fallback name. -/
def epic_link_from_fields : List CatalogField → String
  | [] => "Epic Link"
  | f :: rest =>
    if f.schemaCustom = some ghEpicLinkMarker then epicLinkFieldToken f
    else epic_link_from_fields rest

/-- JiraClient.epic_link_jql_name (app.py lines 207-228): the catalog
fetch outcome is the argument; any exception is swallowed and yields the
fixed fallback name. -/
def epic_link_jql_name (catalog : Except Unit (List CatalogField)) : String :=
  match catalog with
  | .error _ => "Epic Link"
  | .ok fields => epic_link_from_fields fields

/-- Sample committed worklog of 30 seconds used as concrete input. -/
def sampleWorklog : Worklog :=
  { id := "7", authorAccountId := some "acct", started := 500
  , timeSpentSeconds := some 30, commentStr := none }

/-- Sample issue holding the 30-second worklog. -/
def sampleIssue : Issue :=
  { key := "ABC-1", summary := "demo", worklogs := [sampleWorklog] }

/-- Block that the weekly projection produces from sampleIssue. -/
def sampleBlock : CalBlock :=
  { id := "ABC-1::7", title := "ABC-1 · demo", start := 500, stop := 530
  , issueKey := "ABC-1", worklogId := "7", timeSpentSeconds := 30
  , comment := "", editable := false }

/-- Server answering every startAt with one page of three items and
total 3. -/
def samplePages : Nat → WorklogPage Nat :=
  fun _ => { worklogs := [1, 2, 3], total := 3, maxResults := none }

/-- Sample draft used as concrete input. -/
def sampleDraft : Draft := mk_draft_from_click 0

/-- Catalog field carrying the epic-link marker under the custom-field
naming convention. -/
def cfField : CatalogField :=
  { id := some "customfield_10014", name := some "Epic Link"
  , schemaCustom := some ghEpicLinkMarker }

/-- Remote worklog with no stored comment, used as concrete input. -/
def sampleRemote : RemoteWorklog :=
  { started := 0, timeSpentSeconds := 3600, comment := none }

/-- Request an edit-mode save with start 100, duration 3600 and comment c
issues. -/
def sampleEditRequest : WireRequest :=
  { method := "PUT"
  , notifyUsers := false
  , payload :=
      { started := some 100
      , timeSpentSeconds := some 3600
      , comment := some { version := 1, content := [{ content := [{ text := "c" }] }] } } }

/-- C1 counterexample: the committed 30-second worklog of sampleIssue is
projected to a block whose extent is 30 seconds, not max(30, 60) = 60 —
the weekly projection applies no 60-second duration floor. -/
theorem C1_counterexample :
    sampleBlock ∈ cached_worklogs_week "acct" 0 1000 [sampleIssue] ∧
      sampleBlock.stop - sampleBlock.start ≠ max ((sampleBlock.timeSpentSeconds : Int)) 60 := by
  constructor
  · decide
  · decide

/-- C1 (amended): every block of the weekly projection satisfies
stop - start = timeSpentSeconds (missing or null counted as 0) with no
floor; the 60-second floor is applied only by the draft editor duration
computation before a save reaches the remote service. -/
theorem C1_amended :
    (∀ accountId startUtc endUtc issues e,
        e ∈ cached_worklogs_week accountId startUtc endUtc issues →
        e.stop - e.start = (e.timeSpentSeconds : Int)) ∧
      ∀ s t : Int, 60 ≤ editor_dur_secs s t := by
  constructor
  · intro a su eu issues e he
    simp only [cached_worklogs_week, List.mem_flatMap, List.mem_filterMap] at he
    obtain ⟨issue, _hi, wl, _hw, hwl⟩ := he
    by_cases h1 : wl.authorAccountId ≠ some a
    · rw [if_pos h1] at hwl
      exact Option.noConfusion hwl
    · rw [if_neg h1] at hwl
      by_cases h2 : wl.started < su ∨ wl.started > eu
      · rw [if_pos h2] at hwl
        exact Option.noConfusion hwl
      · rw [if_neg h2] at hwl
        rw [Option.some_inj] at hwl
        subst hwl
        simp
  · intro s t
    simp only [editor_dur_secs]
    split <;> omega

/-- C1 witness: the amended statement evaluated on the sample projection. -/
theorem C1_amended_witness :
    sampleBlock.stop - sampleBlock.start = (sampleBlock.timeSpentSeconds : Int) :=
  C1_amended.1 "acct" 0 1000 [sampleIssue] sampleBlock (by decide)

/-- C2 counterexample: an edit-mode save changing both start and duration
issues exactly one PUT whose single payload carries both fields (and the
comment), not two ordered single-field writes. -/
theorem C2_counterexample :
    edit_save_requests 100 3600 "c" = [sampleEditRequest] ∧
      (edit_save_requests 100 3600 "c").length ≠ 2 := by
  constructor
  · decide
  · decide

/-- C2 (amended): an edit-mode save issues exactly one combined partial
write: a single PUT whose payload carries both the new start and the new
duration. -/
theorem C2_amended (startInstant durSecs : Int) (comment : String) :
    (edit_save_requests startInstant durSecs comment).length = 1 ∧
      ∀ r ∈ edit_save_requests startInstant durSecs comment,
        r.method = "PUT" ∧ r.payload.started = some startInstant ∧
          r.payload.timeSpentSeconds = some durSecs := by
  constructor
  · rfl
  · intro r hr
    simp only [edit_save_requests, update_worklog_requests,
      List.mem_singleton] at hr
    subst hr
    exact ⟨rfl, rfl, rfl⟩

/-- C2 witness: the amended statement evaluated on the single request of
a concrete edit-mode save. -/
theorem C2_amended_witness :
    sampleEditRequest.method = "PUT" ∧
      sampleEditRequest.payload.started = some 100 ∧
      sampleEditRequest.payload.timeSpentSeconds = some 3600 :=
  (C2_amended 100 3600 "c").2 sampleEditRequest (by decide)

/-- C3 counterexample: clicking at instant 100 (00:01:40 UTC) yields a
draft starting at 100 itself, not at the lower 5-minute grid line 0: the
click handler never applies round_to_5min. -/
theorem C3_counterexample :
    (mk_draft_from_click 100).mode = "new" ∧
      (mk_draft_from_click 100).stop - (mk_draft_from_click 100).start = 3600 ∧
      (mk_draft_from_click 100).start ≠ round_to_5min 100 := by
  refine ⟨rfl, by decide, by decide⟩

/-- C3 (amended): a click on an empty slot yields a new-mode draft
spanning exactly one hour from the click instant taken as is — no
5-minute truncation is applied to the start. -/
theorem C3_amended (t : Int) :
    (mk_draft_from_click t).mode = "new" ∧
      (mk_draft_from_click t).start = t ∧
      (mk_draft_from_click t).stop = t + 3600 ∧
      (mk_draft_from_click t).issueKey = none ∧
      (mk_draft_from_click t).worklogId = none ∧
      (mk_draft_from_click t).comment = "" :=
  ⟨rfl, rfl, rfl, rfl, rfl, rfl⟩

/-- C4: whenever the accumulated worklogs reach the total reported by the
current page — in particular when that page is empty, or when the server
reports a total smaller than the delivered items — the pagination loop of
get_issue_worklogs returns right away, for every fuel bound, so no
infinite loop arises. -/
theorem C4_pagination_stops {α : Type} (pages : Nat → WorklogPage α)
    (startAt : Nat) (acc : List α) (fuel : Nat) (hfuel : 1 ≤ fuel)
    (htot : (pages startAt).total ≤ acc.length + (pages startAt).worklogs.length) :
    get_issue_worklogs_go pages fuel startAt acc =
      some (acc ++ (pages startAt).worklogs) := by
  cases fuel with
  | zero => exact absurd hfuel (by simp)
  | succ n =>
    simp only [get_issue_worklogs_go]
    rw [if_pos (by simpa [List.length_append] using htot)]

/-- C4 witness: a server reporting total 3 whose first page already holds
all 3 items makes the loop return after exactly one request, already with
fuel 1. -/
theorem C4_pagination_stops_witness :
    get_issue_worklogs_go samplePages 1 0 [] = some [1, 2, 3] := by
  have h := C4_pagination_stops samplePages 0 [] 1 (by decide) (by decide)
  simpa using h

/-- C5: a failing remote write during Save leaves the draft exactly as it
was (and clears no cache), and the draft is dropped only when the remote
write succeeded. -/
theorem C5_save_failure_keeps_draft (d : Draft) (selectedIssueKey : String)
    (remote : Except String Unit) :
    (∀ msg, remote = Except.error msg →
        handle_save d selectedIssueKey remote =
          { draft := some d, cacheCleared := false, errorShown := true }) ∧
      ((handle_save d selectedIssueKey remote).draft = none →
        remote = Except.ok ()) := by
  constructor
  · intro msg hmsg
    subst hmsg
    simp only [handle_save]
    split <;> rfl
  · intro hnone
    cases remote with
    | ok u => cases u; rfl
    | error msg =>
      exfalso
      simp only [handle_save] at hnone
      split at hnone <;> simp at hnone

/-- C5 witness: a concrete failing save keeps the sample draft. -/
theorem C5_save_failure_keeps_draft_witness :
    handle_save sampleDraft "ABC-1" (Except.error "boom") =
      { draft := some sampleDraft, cacheCleared := false, errorShown := true } :=
  (C5_save_failure_keeps_draft sampleDraft "ABC-1" (Except.error "boom")).1 "boom" rfl

/-- C6: every block of the weekly projection comes from a worklog whose
author accountId is the selected one and whose start instant lies inside
the range bounds compared as exact instants, and every such committed
block has editable = false. -/
theorem C6_projection_filter (accountId : String) (startUtc endUtc : Int)
    (issues : List Issue) (e : CalBlock)
    (he : e ∈ cached_worklogs_week accountId startUtc endUtc issues) :
    e.editable = false ∧
      ∃ issue ∈ issues, ∃ wl ∈ issue.worklogs,
        wl.authorAccountId = some accountId ∧
        startUtc ≤ wl.started ∧ wl.started ≤ endUtc ∧ e.start = wl.started := by
  simp only [cached_worklogs_week, List.mem_flatMap, List.mem_filterMap] at he
  obtain ⟨issue, hi, wl, hw, hwl⟩ := he
  by_cases h1 : wl.authorAccountId ≠ some accountId
  · rw [if_pos h1] at hwl
    exact Option.noConfusion hwl
  · rw [if_neg h1] at hwl
    by_cases h2 : wl.started < startUtc ∨ wl.started > endUtc
    · rw [if_pos h2] at hwl
      exact Option.noConfusion hwl
    · rw [if_neg h2] at hwl
      rw [Option.some_inj] at hwl
      subst hwl
      push_neg at h1 h2
      exact ⟨rfl, issue, hi, wl, hw, h1, h2.1, h2.2, rfl⟩

/-- C6 witness: the filter statement evaluated on the sample projection. -/
theorem C6_projection_filter_witness :
    sampleBlock.editable = false ∧
      ∃ issue ∈ [sampleIssue], ∃ wl ∈ issue.worklogs,
        wl.authorAccountId = some "acct" ∧
        (0 : Int) ≤ wl.started ∧ wl.started ≤ 1000 ∧ sampleBlock.start = wl.started :=
  C6_projection_filter "acct" 0 1000 [sampleIssue] sampleBlock (by decide)

/-- C7: delivering the same calendar interaction twice in a row — same
dateClick date or same serialized event payload — is a no-op the second
time: the handler state after the duplicate equals the state after a
single delivery. -/
theorem C7_duplicate_event_noop (s : UIState) (e : CalInteraction) :
    handle_interaction (handle_interaction s e) e = handle_interaction s e := by
  cases e with
  | dateClick d =>
    by_cases h : s.debDateClick = some d
    · simp [handle_interaction, h]
    · simp [handle_interaction, h]
  | eventClick ev =>
    by_cases h : s.debEventClick = some ev
    · simp [handle_interaction, h]
    · by_cases hid : pyStartsWith ev.id "__DRAFT__"
      · simp [handle_interaction, h, hid]
      · cases hm : mk_draft_from_existing ev <;>
          simp [handle_interaction, h, hid, hm]
  | eventChange ev =>
    by_cases h : s.debEventChange = some ev
    · simp [handle_interaction, h]
    · by_cases hid : pyStartsWith ev.id "__DRAFT__"
      · cases hd : s.draft <;> simp [handle_interaction, h, hid, hd]
      · simp [handle_interaction, h, hid]

/-- C8: add_worklog carries a non-empty comment as a version-1 document
of exactly one paragraph with that text, omits the comment field for the
empty comment, and never carries an empty document. -/
theorem C8_add_worklog_comment (startedIso timeSpentSeconds : Int) (comment : String) :
    (comment = "" → (add_worklog_payload startedIso timeSpentSeconds comment).comment = none) ∧
      (comment ≠ "" →
        (add_worklog_payload startedIso timeSpentSeconds comment).comment =
          some { version := 1, content := [{ content := [{ text := comment }] }] }) ∧
      ∀ d, (add_worklog_payload startedIso timeSpentSeconds comment).comment = some d →
        ∃ txt, txt ≠ "" ∧
          d = { version := 1, content := [{ content := [{ text := txt }] }] } := by
  refine ⟨?_, ?_, ?_⟩
  · intro h
    simp [add_worklog_payload, adf_comment, h]
  · intro h
    simp [add_worklog_payload, adf_comment, h]
  · intro d hd
    by_cases h : comment = ""
    · simp [add_worklog_payload, adf_comment, h] at hd
    · simp [add_worklog_payload, adf_comment, h] at hd
      exact ⟨comment, h, hd.symm⟩

/-- C8 witness: a concrete non-empty comment is carried as a single
paragraph document. -/
theorem C8_add_worklog_comment_witness :
    (add_worklog_payload 0 3600 "note").comment =
      some { version := 1, content := [{ content := [{ text := "note" }] }] } :=
  (C8_add_worklog_comment 0 3600 "note").2.1 (by decide)

/-- Helper: the catalog loop of epic_link_jql_name is decided by the
first field whose schema marker matches. -/
theorem epic_link_from_fields_find (fields : List CatalogField) :
    epic_link_from_fields fields =
      match fields.find? (fun f => decide (f.schemaCustom = some ghEpicLinkMarker)) with
      | none => "Epic Link"
      | some f => epicLinkFieldToken f := by
  induction fields with
  | nil => rfl
  | cons f rest ih =>
    by_cases h : f.schemaCustom = some ghEpicLinkMarker
    · simp [epic_link_from_fields, List.find?_cons, h]
    · simp [epic_link_from_fields, List.find?_cons, h, ih]

/-- C9: epic_link_jql_name returns the bracketed numeric token when the
field found by the schema marker has an id under the custom-field naming
convention, that field's display name (with the fixed fallback as
default) otherwise, and the fixed fallback name when no field matches or
the catalog call fails — failure never escapes as an exception. -/
theorem C9_epic_link_token (catalog : Except Unit (List CatalogField)) :
    (∀ u, catalog = Except.error u → epic_link_jql_name catalog = "Epic Link") ∧
      (∀ fields, catalog = Except.ok fields →
        fields.find? (fun f => decide (f.schemaCustom = some ghEpicLinkMarker)) = none →
        epic_link_jql_name catalog = "Epic Link") ∧
      (∀ fields f fid, catalog = Except.ok fields →
        fields.find? (fun f => decide (f.schemaCustom = some ghEpicLinkMarker)) = some f →
        f.id = some fid →
        (pyNonEmpty fid && pyStartsWith fid "customfield_") = true →
        epic_link_jql_name catalog = "cf[" ++ splitUnderscoreRest fid ++ "]") ∧
      (∀ fields f fid, catalog = Except.ok fields →
        fields.find? (fun f => decide (f.schemaCustom = some ghEpicLinkMarker)) = some f →
        f.id = some fid →
        (pyNonEmpty fid && pyStartsWith fid "customfield_") = false →
        epic_link_jql_name catalog = f.name.getD "Epic Link") ∧
      (∀ fields f, catalog = Except.ok fields →
        fields.find? (fun f => decide (f.schemaCustom = some ghEpicLinkMarker)) = some f →
        f.id = none →
        epic_link_jql_name catalog = f.name.getD "Epic Link") := by
  refine ⟨?_, ?_, ?_, ?_, ?_⟩
  · intro u hu
    subst hu
    rfl
  · intro fields hok hfind
    subst hok
    simp [epic_link_jql_name, epic_link_from_fields_find, hfind]
  · intro fields f fid hok hfind hid hguard
    subst hok
    simp [epic_link_jql_name, epic_link_from_fields_find, hfind,
      epicLinkFieldToken, hid, hguard]
  · intro fields f fid hok hfind hid hguard
    subst hok
    simp [epic_link_jql_name, epic_link_from_fields_find, hfind,
      epicLinkFieldToken, hid, hguard]
  · intro fields f hok hfind hid
    subst hok
    simp [epic_link_jql_name, epic_link_from_fields_find, hfind,
      epicLinkFieldToken, hid]

/-- C9 witness: a failed catalog call yields the fallback name and a
catalog holding the marked custom field yields its bracketed token. -/
theorem C9_epic_link_token_witness :
    epic_link_jql_name (Except.error ()) = "Epic Link" ∧
      epic_link_jql_name (Except.ok [cfField]) = "cf[10014]" := by
  constructor
  · exact (C9_epic_link_token (Except.error ())).1 () rfl
  · have h := (C9_epic_link_token (Except.ok [cfField])).2.2.1 [cfField] cfField
      "customfield_10014" rfl (by decide) rfl (by decide)
    exact h.trans (by decide)

/-- C10: an edit-mode save with an empty comment builds an update payload
with the comment field absent, so the partial update leaves the stored
comment untouched, and no update issued through the draft editor can ever
turn a present stored comment into an absent one. -/
theorem C10_empty_comment_frame (startInstant durSecs : Int) (w : RemoteWorklog) :
    (edit_save_payload startInstant durSecs "").comment = none ∧
      (applyUpdate w (edit_save_payload startInstant durSecs "")).comment = w.comment ∧
      ∀ c : String,
        (applyUpdate w (edit_save_payload startInstant durSecs c)).comment = none →
        w.comment = none := by
  refine ⟨rfl, rfl, ?_⟩
  intro c hc
  by_cases h : c = ""
  · simpa [edit_save_payload, update_worklog_payload, applyUpdate,
      adf_comment, h] using hc
  · simp [edit_save_payload, update_worklog_payload, applyUpdate,
      adf_comment, h] at hc

/-- C10 witness: the frame statement applied to the sample remote worklog
with an empty comment. -/
theorem C10_empty_comment_frame_witness :
    sampleRemote.comment = none :=
  (C10_empty_comment_frame 5 60 sampleRemote).2.2 "" rfl

end Jiracal
